import Mathlib

/-!
Shallow embedding of the floral-arrangement taxonomy pipeline of
`src/floral_arrangement_mcp/server.py`, and proofs about its detectors,
the structure mapper, the prompt formatter and the ComfyUI workflow
builder.  Python dictionaries become Lean structures or association
lists, Python strings become Lean `String` (ASCII data throughout the
tables), and the fallible size parser returns an `Option`.
-/

namespace FloralArrangement

/-- Whether the first character list is a prefix of the second. -/
def prefixOfB : List Char → List Char → Bool
  | [], _ => true
  | _ :: _, [] => false
  | a :: as, b :: bs => a == b && prefixOfB as bs

/-- Whether the first character list occurs contiguously in the second. -/
def infixOfB (n : List Char) : List Char → Bool
  | [] => n.isEmpty
  | b :: bs => prefixOfB n (b :: bs) || infixOfB n bs

/-- Python `needle in hay` on strings: substring containment. -/
def strContains (hay needle : String) : Bool :=
  infixOfB needle.data hay.data

/-- Python `s.lower()` (ASCII): lower-case every character. -/
def py_lower (s : String) : String :=
  ⟨s.data.map Char.toLower⟩

/-- Python `s.replace("_", " ")` for the single characters involved. -/
def underscore_to_space (s : String) : String :=
  ⟨s.data.map (fun c => if c = '_' then ' ' else c)⟩

/-- One step of Python `s.title()` (ASCII): upper-case a letter that starts a
letter run, lower-case the other letters; the flag says whether the previous
character was a letter. -/
def py_title_chars : Bool → List Char → List Char
  | _, [] => []
  | prevCased, c :: rest =>
    if c.isAlpha then
      (if prevCased then c.toLower else c.toUpper) :: py_title_chars true rest
    else
      c :: py_title_chars false rest

/-- Python `s.title()` (ASCII). -/
def py_title (s : String) : String :=
  ⟨py_title_chars false s.data⟩

/-- Association-list lookup, as Python `d[k]` / `k in d` over the static
tables (their keys are distinct, and insertion order is kept). -/
def lookupStr {α : Type} (k : String) : List (String × α) → Option α
  | [] => none
  | e :: rest => if e.1 = k then some e.2 else lookupStr k rest

/-- Python `s.split(sep)` for a one-character separator. -/
def splitOnChar (sep : Char) : List Char → List (List Char)
  | [] => [[]]
  | c :: rest =>
    if c = sep then
      [] :: splitOnChar sep rest
    else
      match splitOnChar sep rest with
      | [] => [[c]]
      | part :: parts => (c :: part) :: parts

/-! ### ARRANGEMENT_STYLES -/

/-- The value part of one `ARRANGEMENT_STYLES[category][type]` entry. -/
structure StyleData where
  description : String
  container : String
  characteristics : String
  balance : String
  complexity : String
  deriving DecidableEq

def moribana : StyleData :=
  { description := "Low bowl arrangement, naturalistic landscape",
    container := "shallow bowl, suiban",
    characteristics := "horizontal emphasis, nature scenery, kenzan pin holder",
    balance := "asymmetrical",
    complexity := "high" }

def nageire : StyleData :=
  { description := "Tall vase arrangement, flowing asymmetrical",
    container := "tall cylindrical vase",
    characteristics := "natural grace, no mechanics visible, stem supports stem",
    balance := "asymmetrical",
    complexity := "medium" }

def rikka : StyleData :=
  { description := "Formal standing flowers, classical seven-branch",
    container := "bronze or ceramic vase",
    characteristics := "symbolic cosmic mountain, rigid structure, ceremonial",
    balance := "symmetrical",
    complexity := "very high" }

def cascade : StyleData :=
  { description := "Waterfall flow with trailing elements",
    container := "elevated pedestal vase or urn",
    characteristics := "dramatic downward movement, trailing vines, 1.5x container height drop",
    balance := "asymmetrical",
    complexity := "high" }

def crescent : StyleData :=
  { description := "Curved asymmetrical arc, moon-shaped",
    container := "low bowl or compote",
    characteristics := "graceful curve, negative space emphasis, 60-degree arc",
    balance := "asymmetrical",
    complexity := "medium" }

def hogarth : StyleData :=
  { description := "S-curve, line of beauty",
    container := "pedestal vase or urn",
    characteristics := "flowing S-shape, dynamic movement, elegant proportion",
    balance := "asymmetrical",
    complexity := "high" }

def dome : StyleData :=
  { description := "Rounded symmetrical mass",
    container := "low bowl, vase, or compote",
    characteristics := "equal dimensions all sides, full 360-degree viewing, dense",
    balance := "radial symmetrical",
    complexity := "low" }

def triangular : StyleData :=
  { description := "Stable pyramid form",
    container := "any stable base",
    characteristics := "wide base tapering to point, classical proportion, formal",
    balance := "symmetrical",
    complexity := "low" }

def vertical : StyleData :=
  { description := "Tall upright emphasis",
    container := "tall narrow vase",
    characteristics := "height 2-3x container, upward movement, line flowers dominant",
    balance := "symmetrical or asymmetrical",
    complexity := "low" }

def horizontal : StyleData :=
  { description := "Low spreading centerpiece",
    container := "long low container or candelabra",
    characteristics := "width 3x height, table centerpiece, conversation-friendly",
    balance := "symmetrical",
    complexity := "medium" }

def minimalist : StyleData :=
  { description := "Few stems, negative space emphasis",
    container := "simple geometric vessel",
    characteristics := "3-7 stems maximum, sculptural form, breathing space",
    balance := "asymmetrical",
    complexity := "medium" }

def structural : StyleData :=
  { description := "Architectural, geometric forms",
    container := "modern cube, cylinder, or asymmetric",
    characteristics := "bold lines, repetition, graphic shapes, non-traditional materials",
    balance := "often asymmetrical",
    complexity := "high" }

def garden_style : StyleData :=
  { description := "Loose, natural, abundant",
    container := "rustic basket, vintage vessel",
    characteristics := "just-picked feel, varied textures, romantic fullness, organic",
    balance := "asymmetrical",
    complexity := "medium" }

def parallel : StyleData :=
  { description := "Stems grouped in vertical lines",
    container := "rectangular or cylindrical",
    characteristics := "stems visible through glass, grouped bundles, modern clean",
    balance := "symmetrical or asymmetrical",
    complexity := "low" }

def ARRANGEMENT_STYLES : List (String × List (String × StyleData)) :=
  [("ikebana", [("moribana", moribana), ("nageire", nageire), ("rikka", rikka)]),
   ("western_classical",
     [("cascade", cascade), ("crescent", crescent), ("hogarth", hogarth),
      ("dome", dome), ("triangular", triangular), ("vertical", vertical),
      ("horizontal", horizontal)]),
   ("contemporary",
     [("minimalist", minimalist), ("structural", structural),
      ("garden_style", garden_style), ("parallel", parallel)])]

/-- The record `detect_arrangement_style` returns: the category and type tags
spread together with the style data (`{"category": ..., "type": ..., **data}`). -/
structure StyleEntry where
  category : String
  type : String
  description : String
  container : String
  characteristics : String
  balance : String
  complexity : String
  deriving DecidableEq

def mkStyle (category type_ : String) (d : StyleData) : StyleEntry :=
  { category := category, type := type_, description := d.description,
    container := d.container, characteristics := d.characteristics,
    balance := d.balance, complexity := d.complexity }

/-- The loop body of the preference branch of `detect_arrangement_style`: the
first category whose style table has `preference` as a key yields its entry. -/
def findStylePreference (preference : String) :
    List (String × List (String × StyleData)) → Option StyleEntry
  | [] => none
  | (category, styles) :: rest =>
    match lookupStr preference styles with
    | some d => some (mkStyle category preference d)
    | none => findStylePreference preference rest

/-- `detect_arrangement_style(intent, preference)` translated clause by clause
from the source; its caller passes the already lower-cased intent. -/
def detect_arrangement_style (intent preference : String) : StyleEntry :=
  if strContains intent "ikebana" || strContains intent "japanese" then
    if strContains intent "moribana" then mkStyle "ikebana" "moribana" moribana
    else if strContains intent "nageire" then mkStyle "ikebana" "nageire" nageire
    else mkStyle "ikebana" "nageire" nageire
  else if strContains intent "cascade" || strContains intent "waterfall"
      || strContains intent "trailing" then
    mkStyle "western_classical" "cascade" cascade
  else if strContains intent "dome" || strContains intent "round"
      || strContains intent "centerpiece" then
    mkStyle "western_classical" "dome" dome
  else if strContains intent "minimal" || strContains intent "modern"
      || strContains intent "contemporary" then
    mkStyle "contemporary" "minimalist" minimalist
  else if strContains intent "garden" || strContains intent "loose"
      || strContains intent "natural" || strContains intent "romantic" then
    mkStyle "contemporary" "garden_style" garden_style
  else if strContains intent "crescent" || strContains intent "curve" then
    mkStyle "western_classical" "crescent" crescent
  else if preference ≠ "any" then
    match findStylePreference preference ARRANGEMENT_STYLES with
    | some e => e
    | none => mkStyle "contemporary" "garden_style" garden_style
  else
    mkStyle "contemporary" "garden_style" garden_style

/-- Style detection as claim C1 words it: an ordered list of trigger phrases,
each rule bound to one entry, the enumerated triggers only. -/
def claim_style_rules : List (List String × StyleEntry) :=
  [(["ikebana", "japanese"], mkStyle "ikebana" "nageire" nageire),
   (["cascade", "waterfall"], mkStyle "western_classical" "cascade" cascade),
   (["dome", "round", "centerpiece"], mkStyle "western_classical" "dome" dome),
   (["minimal", "modern", "contemporary"], mkStyle "contemporary" "minimalist" minimalist),
   (["garden", "loose", "natural", "romantic"], mkStyle "contemporary" "garden_style" garden_style),
   (["crescent", "curve"], mkStyle "western_classical" "crescent" crescent)]

/-- The detector claim C1 describes: first matching rule of
`claim_style_rules` wins; otherwise the preference when it names a known
style type; otherwise the contemporary garden_style default. -/
def detect_style_per_claim (intent preference : String) : StyleEntry :=
  match claim_style_rules.find? (fun r => r.1.any (fun t => strContains intent t)) with
  | some r => r.2
  | none =>
    match findStylePreference preference ARRANGEMENT_STYLES with
    | some e => e
    | none => mkStyle "contemporary" "garden_style" garden_style

/-- The rule list of the amended claim C1: "trailing" joins the cascade rule,
and the ikebana rule selects the moribana entry when the intent mentions
moribana, else the nageire entry. -/
def amended_style_rules (intent : String) : List (List String × StyleEntry) :=
  [(["ikebana", "japanese"],
     if strContains intent "moribana" then mkStyle "ikebana" "moribana" moribana
     else mkStyle "ikebana" "nageire" nageire),
   (["cascade", "waterfall", "trailing"], mkStyle "western_classical" "cascade" cascade),
   (["dome", "round", "centerpiece"], mkStyle "western_classical" "dome" dome),
   (["minimal", "modern", "contemporary"], mkStyle "contemporary" "minimalist" minimalist),
   (["garden", "loose", "natural", "romantic"], mkStyle "contemporary" "garden_style" garden_style),
   (["crescent", "curve"], mkStyle "western_classical" "crescent" crescent)]

/-- The amended claim C1's detector: case-insensitive first-match over
`amended_style_rules`, then the preference lookup, then the default. -/
def detect_style_amended_spec (intent preference : String) : StyleEntry :=
  match (amended_style_rules (py_lower intent)).find?
      (fun r => r.1.any (fun t => strContains (py_lower intent) t)) with
  | some r => r.2
  | none =>
    match findStylePreference preference ARRANGEMENT_STYLES with
    | some e => e
    | none => mkStyle "contemporary" "garden_style" garden_style

/-! ### FLOWERS_BY_ROLE -/

/-- The value part of one `FLOWERS_BY_ROLE[role][name]` entry; fields absent
from an entry are `none`. -/
structure FlowerData where
  types : Option (List String) := none
  characteristics : String
  color_range : Option String := none
  size : Option String := none
  seasons : Option (List String) := none
  symbolism : Option String := none
  height : Option String := none
  use : Option String := none
  texture : Option String := none
  deriving DecidableEq

def roses : FlowerData :=
  { types := some ["garden roses", "spray roses", "hybrid tea", "English roses"],
    characteristics := "classic beauty, layered petals, focal point dominance",
    color_range := some "full spectrum",
    size := some "large 3-5 inches",
    seasons := some ["spring", "summer", "fall"],
    symbolism := some "love, romance, elegance" }

def peonies : FlowerData :=
  { types := some ["herbaceous", "tree peony", "Itoh hybrid"],
    characteristics := "lush ruffled petals, full bloom drama, short season",
    color_range := some "white, pink, coral, burgundy",
    size := some "very large 4-6 inches",
    seasons := some ["late spring", "early summer"],
    symbolism := some "prosperity, honor, romance" }

def lilies : FlowerData :=
  { types := some ["oriental", "asiatic", "calla", "trumpet"],
    characteristics := "dramatic form, strong fragrance (oriental), architectural",
    color_range := some "full spectrum",
    size := some "large 4-6 inches per bloom",
    seasons := some ["summer", "fall"],
    symbolism := some "purity, majesty, sophistication" }

def orchids : FlowerData :=
  { types := some ["phalaenopsis", "cymbidium", "dendrobium", "vanda"],
    characteristics := "exotic elegance, long-lasting, tropical",
    color_range := some "white, pink, purple, yellow, green",
    size := some "medium 2-4 inches",
    seasons := some ["year-round"],
    symbolism := some "luxury, refinement, beauty" }

def hydrangeas : FlowerData :=
  { types := some ["mophead", "lacecap", "paniculata", "oakleaf"],
    characteristics := "full mass, color-changing, garden feel",
    color_range := some "blue, pink, white, green, purple",
    size := some "very large 6-8 inch heads",
    seasons := some ["summer", "fall"],
    symbolism := some "gratitude, abundance, heartfelt emotion" }

def sunflowers : FlowerData :=
  { types := some ["giant", "teddy bear", "moulin rouge", "autumn beauty"],
    characteristics := "bold face, cheerful, rustic charm",
    color_range := some "yellow, orange, burgundy, bronze",
    size := some "large 4-10 inches",
    seasons := some ["summer", "fall"],
    symbolism := some "happiness, loyalty, longevity" }

def dahlias : FlowerData :=
  { types := some ["dinner plate", "cactus", "pompon", "decorative"],
    characteristics := "geometric petals, bold color, garden luxury",
    color_range := some "full spectrum except blue",
    size := some "small to very large 2-10 inches",
    seasons := some ["late summer", "fall"],
    symbolism := some "elegance, dignity, commitment" }

def snapdragons : FlowerData :=
  { characteristics := "vertical spikes, graduated blooms, height emphasis",
    color_range := some "full spectrum",
    height := some "18-36 inches",
    use := some "creates vertical movement and height" }

def delphiniums : FlowerData :=
  { characteristics := "tall elegant columns, cottage garden feel",
    color_range := some "blue, purple, pink, white",
    height := some "24-48 inches",
    use := some "dramatic height, romantic spires" }

def gladiolus : FlowerData :=
  { characteristics := "sword-like stems, formal linear",
    color_range := some "full spectrum",
    height := some "24-60 inches",
    use := some "strong vertical lines, classical elegance" }

def liatris : FlowerData :=
  { characteristics := "fuzzy textured spikes, blooms top-down",
    color_range := some "purple, white",
    height := some "18-36 inches",
    use := some "unique texture, prairie wildflower feel" }

def bells_of_ireland : FlowerData :=
  { characteristics := "green architectural spires, shell-like calyxes",
    color_range := some "lime green",
    height := some "24-36 inches",
    use := some "fresh green accent, Irish symbolism" }

def stock : FlowerData :=
  { characteristics := "fragrant vertical clusters, cottage garden",
    color_range := some "white, pink, purple, lavender",
    height := some "18-30 inches",
    use := some "fragrance, soft spires, romantic" }

def baby_breath : FlowerData :=
  { characteristics := "cloud-like delicate, tiny white blooms",
    use := some "softens arrangements, creates airiness, classic filler",
    texture := some "fine, misty" }

def waxflower : FlowerData :=
  { characteristics := "tiny clustered blooms, long-lasting, waxy texture",
    color_range := some "white, pink, purple",
    use := some "elegant filler, wedding favorite" }

def statice : FlowerData :=
  { characteristics := "papery textured, long-lasting, dried feel",
    color_range := some "purple, white, yellow, pink",
    use := some "texture contrast, everlasting quality" }

def solidago : FlowerData :=
  { characteristics := "golden plumes, wild meadow feel",
    color_range := some "yellow, gold",
    use := some "fall arrangements, cheerful accent" }

def alstroemeria : FlowerData :=
  { characteristics := "small lily-like, long vase life, multiple blooms",
    color_range := some "full spectrum",
    use := some "versatile filler, budget-friendly" }

def hypericum : FlowerData :=
  { characteristics := "berry-like, unique texture",
    color_range := some "red, burgundy, white, green",
    use := some "adds interest, festive accent" }

def thistle : FlowerData :=
  { characteristics := "spiky, architectural, edgy",
    color_range := some "purple, blue, white",
    use := some "modern edge, texture contrast" }

def protea : FlowerData :=
  { characteristics := "bold sculptural, exotic",
    color_range := some "pink, coral, cream",
    use := some "focal drama, tropical luxury" }

def scabiosa : FlowerData :=
  { characteristics := "pincushion center, whimsical",
    color_range := some "deep burgundy, purple, white",
    use := some "unique texture, romantic gardens" }

def ranunculus : FlowerData :=
  { characteristics := "layered tissue-paper petals, romantic",
    color_range := some "full spectrum",
    use := some "texture richness, elegant beauty" }

def focal_flower_table : List (String × FlowerData) :=
  [("roses", roses), ("peonies", peonies), ("lilies", lilies), ("orchids", orchids),
   ("hydrangeas", hydrangeas), ("sunflowers", sunflowers), ("dahlias", dahlias)]

def line_flower_table : List (String × FlowerData) :=
  [("snapdragons", snapdragons), ("delphiniums", delphiniums), ("gladiolus", gladiolus),
   ("liatris", liatris), ("bells_of_ireland", bells_of_ireland), ("stock", stock)]

def filler_flower_table : List (String × FlowerData) :=
  [("baby_breath", baby_breath), ("waxflower", waxflower), ("statice", statice),
   ("solidago", solidago), ("alstroemeria", alstroemeria), ("hypericum", hypericum)]

def texture_flower_table : List (String × FlowerData) :=
  [("thistle", thistle), ("protea", protea), ("scabiosa", scabiosa),
   ("ranunculus", ranunculus)]

def FLOWERS_BY_ROLE : List (String × List (String × FlowerData)) :=
  [("focal", focal_flower_table), ("line", line_flower_table),
   ("filler", filler_flower_table), ("texture", texture_flower_table)]

/-- One detected or suggested flower: `{"name": ..., "role": ..., **flower_data}`,
the spread table entry kept as the `data` field. -/
structure DetectedFlower where
  name : String
  role : String
  data : FlowerData
  deriving DecidableEq

/-- The result of `detect_flowers`: one list per role key; all four keys are
always present. -/
structure DetectedFlowers where
  focal : List DetectedFlower
  line : List DetectedFlower
  filler : List DetectedFlower
  texture : List DetectedFlower
  deriving DecidableEq

/-- Dictionary indexing `detected[role]` on the four role keys. -/
def DetectedFlowers.get (d : DetectedFlowers) (role : String) : List DetectedFlower :=
  if role = "focal" then d.focal
  else if role = "line" then d.line
  else if role = "filler" then d.filler
  else if role = "texture" then d.texture
  else []

/-- The matches one role's table contributes in the explicit-mention pass of
`detect_flowers`, in table order. -/
def role_matches (role : String) (tbl : List (String × FlowerData)) (intent : String) :
    List DetectedFlower :=
  tbl.filterMap fun e =>
    if strContains intent (underscore_to_space e.1) then
      some { name := underscore_to_space e.1, role := role, data := e.2 }
    else none

/-- The explicit-mention pass of `detect_flowers` over all of `FLOWERS_BY_ROLE`. -/
def detect_flowers_pass1 (intent : String) : DetectedFlowers :=
  { focal := role_matches "focal" focal_flower_table intent,
    line := role_matches "line" line_flower_table intent,
    filler := role_matches "filler" filler_flower_table intent,
    texture := role_matches "texture" texture_flower_table intent }

/-- `suggest_flowers_by_occasion(occasion, intent)`: the five-branch
occasion/keyword fallback. -/
def suggest_flowers_by_occasion (occasion intent : String) : DetectedFlowers :=
  if strContains occasion "wedding" || strContains intent "wedding"
      || strContains intent "bridal" then
    { focal := [{ name := "garden roses", role := "focal", data := roses },
                { name := "peonies", role := "focal", data := peonies }],
      line := [],
      filler := [{ name := "baby breath", role := "filler", data := baby_breath }],
      texture := [] }
  else if strContains intent "romantic" || strContains intent "anniversary" then
    { focal := [{ name := "roses", role := "focal", data := roses }],
      line := [], filler := [],
      texture := [{ name := "ranunculus", role := "texture", data := ranunculus }] }
  else if strContains intent "vibrant" || strContains intent "celebration"
      || strContains intent "birthday" then
    { focal := [{ name := "sunflowers", role := "focal", data := sunflowers },
                { name := "dahlias", role := "focal", data := dahlias }],
      line := [], filler := [], texture := [] }
  else if strContains intent "elegant" || strContains intent "formal" then
    { focal := [{ name := "orchids", role := "focal", data := orchids },
                { name := "lilies", role := "focal", data := lilies }],
      line := [], filler := [], texture := [] }
  else
    { focal := [{ name := "roses", role := "focal", data := roses }],
      line := [],
      filler := [{ name := "waxflower", role := "filler", data := waxflower }],
      texture := [] }

/-- `detect_flowers(intent, occasion)`: explicit mentions first, the occasion
fallback only when no role matched anything. -/
def detect_flowers (intent occasion : String) : DetectedFlowers :=
  let detected := detect_flowers_pass1 intent
  if detected.focal.isEmpty && detected.line.isEmpty && detected.filler.isEmpty
      && detected.texture.isEmpty then
    suggest_flowers_by_occasion occasion intent
  else detected

/-- The effective guard of each of the five branches of
`suggest_flowers_by_occasion`, in branch order. -/
def occasion_branch_guards (occasion intent : String) : List Bool :=
  let c1 := strContains occasion "wedding" || strContains intent "wedding"
              || strContains intent "bridal"
  let c2 := strContains intent "romantic" || strContains intent "anniversary"
  let c3 := strContains intent "vibrant" || strContains intent "celebration"
              || strContains intent "birthday"
  let c4 := strContains intent "elegant" || strContains intent "formal"
  [c1, !c1 && c2, !c1 && !c2 && c3, !c1 && !c2 && !c3 && c4,
   !c1 && !c2 && !c3 && !c4]

/-! ### COLOR_PALETTES and detect_color_scheme -/

/-- The value part of one `COLOR_PALETTES[name]` entry; fields absent from an
entry are `none` (`effect` is present in every entry). -/
structure PaletteData where
  description : Option String := none
  examples : Option (List String) := none
  colors : Option (List String) := none
  effect : String
  seasons : Option (List String) := none
  occasions : Option (List String) := none
  deriving DecidableEq

def monochromatic : PaletteData :=
  { description := some "Single color in varying shades and tints",
    examples := some ["all white", "blush to deep pink", "cream to chocolate"],
    effect := "sophisticated, cohesive, elegant",
    occasions := some ["wedding", "formal", "minimalist"] }

def analogous : PaletteData :=
  { description := some "Colors adjacent on color wheel",
    examples := some ["yellow-orange-red", "blue-purple-violet", "yellow-green-blue"],
    effect := "harmonious, natural, pleasing",
    occasions := some ["everyday", "celebration", "garden-style"] }

def complementary : PaletteData :=
  { description := some "Opposite colors on wheel",
    examples := some ["purple-yellow", "blue-orange", "red-green"],
    effect := "vibrant, energetic, bold contrast",
    occasions := some ["celebration", "modern", "attention-grabbing"] }

def triadic : PaletteData :=
  { description := some "Three colors evenly spaced on wheel",
    examples := some ["red-yellow-blue", "orange-green-purple"],
    effect := "vibrant, balanced, rich",
    occasions := some ["festive", "children", "joyful"] }

def romantic : PaletteData :=
  { colors := some ["blush pink", "cream", "soft peach", "ivory", "champagne"],
    effect := "soft, dreamy, feminine, gentle",
    occasions := some ["wedding", "bridal shower", "anniversary"] }

def elegant : PaletteData :=
  { colors := some ["deep burgundy", "cream", "forest green", "white", "gold accent"],
    effect := "sophisticated, refined, formal",
    occasions := some ["gala", "formal dinner", "luxury events"] }

def vibrant : PaletteData :=
  { colors := some ["magenta", "orange", "hot pink", "yellow", "coral"],
    effect := "energetic, joyful, bold",
    occasions := some ["birthday", "tropical", "celebration"] }

def spring : PaletteData :=
  { colors := some ["tulip yellow", "daffodil", "lavender", "soft pink", "fresh green"],
    effect := "fresh, renewal, optimistic",
    seasons := some ["spring"],
    occasions := some ["easter", "spring wedding"] }

def summer : PaletteData :=
  { colors := some ["bright yellow", "coral", "hot pink", "orange", "lime green"],
    effect := "warm, abundant, lively",
    seasons := some ["summer"],
    occasions := some ["garden party", "outdoor celebration"] }

def autumn : PaletteData :=
  { colors := some ["rust orange", "burgundy", "golden yellow", "bronze", "deep red"],
    effect := "warm, rich, harvest",
    seasons := some ["fall"],
    occasions := some ["thanksgiving", "fall wedding"] }

def winter : PaletteData :=
  { colors := some ["deep red", "white", "evergreen", "silver", "navy"],
    effect := "crisp, festive, elegant",
    seasons := some ["winter"],
    occasions := some ["christmas", "winter formal"] }

def COLOR_PALETTES : List (String × PaletteData) :=
  [("monochromatic", monochromatic), ("analogous", analogous),
   ("complementary", complementary), ("triadic", triadic), ("romantic", romantic),
   ("elegant", elegant), ("vibrant", vibrant), ("spring", spring),
   ("summer", summer), ("autumn", autumn), ("winter", winter)]

/-- The record `detect_color_scheme` returns:
`{"palette": name, **palette_data}`. -/
structure ColorScheme where
  palette : String
  description : Option String := none
  examples : Option (List String) := none
  colors : Option (List String) := none
  effect : String
  seasons : Option (List String) := none
  occasions : Option (List String) := none
  deriving DecidableEq

def mkColorScheme (name : String) (d : PaletteData) : ColorScheme :=
  { palette := name, description := d.description, examples := d.examples,
    colors := d.colors, effect := d.effect, seasons := d.seasons,
    occasions := d.occasions }

/-- `detect_color_scheme(intent, color_preference, occasion)` translated
clause by clause from the source (the `occasion` argument is accepted and
unused there). -/
def detect_color_scheme (intent color_preference occasion : String) : ColorScheme :=
  let intent_lower := py_lower intent
  match COLOR_PALETTES.find? (fun e => strContains intent_lower e.1) with
  | some e => mkColorScheme e.1 e.2
  | none =>
    if strContains intent_lower "spring" then mkColorScheme "spring" spring
    else if strContains intent_lower "summer" then mkColorScheme "summer" summer
    else if strContains intent_lower "autumn" || strContains intent_lower "fall" then
      mkColorScheme "autumn" autumn
    else if strContains intent_lower "winter" then mkColorScheme "winter" winter
    else if strContains intent_lower "romantic" || strContains intent_lower "wedding" then
      mkColorScheme "romantic" romantic
    else if strContains intent_lower "elegant" || strContains intent_lower "formal" then
      mkColorScheme "elegant" elegant
    else if strContains intent_lower "vibrant" || strContains intent_lower "bold" then
      mkColorScheme "vibrant" vibrant
    else
      match lookupStr color_preference COLOR_PALETTES with
      | some d => mkColorScheme color_preference d
      | none => mkColorScheme "analogous" analogous

/-- The ordered rule list claim C4 describes: palette names in table order,
then the four season rules, then the three mood rules, then the
color-preference rule; each rule a (condition, palette) pair. -/
def color_rule_list (intent_lower color_preference : String) :
    List (Bool × ColorScheme) :=
  COLOR_PALETTES.map (fun e => (strContains intent_lower e.1, mkColorScheme e.1 e.2)) ++
  [(strContains intent_lower "spring", mkColorScheme "spring" spring),
   (strContains intent_lower "summer", mkColorScheme "summer" summer),
   (strContains intent_lower "autumn" || strContains intent_lower "fall",
     mkColorScheme "autumn" autumn),
   (strContains intent_lower "winter", mkColorScheme "winter" winter),
   (strContains intent_lower "romantic" || strContains intent_lower "wedding",
     mkColorScheme "romantic" romantic),
   (strContains intent_lower "elegant" || strContains intent_lower "formal",
     mkColorScheme "elegant" elegant),
   (strContains intent_lower "vibrant" || strContains intent_lower "bold",
     mkColorScheme "vibrant" vibrant),
   ((lookupStr color_preference COLOR_PALETTES).isSome,
     mkColorScheme color_preference
       ((lookupStr color_preference COLOR_PALETTES).getD analogous))]

/-- The color detector claim C4 describes: the first satisfied rule of
`color_rule_list` wins, and with no rule satisfied the analogous palette
is the default. -/
def detect_color_scheme_spec (intent color_preference occasion : String) : ColorScheme :=
  match (color_rule_list (py_lower intent) color_preference).find? (fun r => r.1) with
  | some r => r.2
  | none => mkColorScheme "analogous" analogous

/-! ### STRUCTURAL_TECHNIQUES and map_structure -/

/-- One structural-technique entry; the families carry different extra
fields, so fields absent from an entry are `none`. -/
structure Technique where
  description : String
  arrangements : Option (List String) := none
  effect : Option String := none
  application : Option String := none
  technique : Option String := none
  examples : Option String := none
  style : Option String := none
  deriving DecidableEq

def symmetrical_radial : Technique :=
  { description := "Equal visual weight radiating from center",
    arrangements := some ["dome", "round", "triangular"],
    effect := some "formal, stable, traditional" }

def symmetrical_bilateral : Technique :=
  { description := "Mirror image left and right",
    arrangements := some ["triangular", "vertical", "fan"],
    effect := some "formal, classical, orderly" }

def asymmetrical : Technique :=
  { description := "Unequal but balanced visual weight",
    arrangements := some ["crescent", "hogarth", "ikebana"],
    effect := some "dynamic, natural, contemporary" }

def golden_ratio : Technique :=
  { description := "1.618:1 ratio between elements",
    application := some "height to width, focal to filler, container to arrangement" }

def single_dominant : Technique :=
  { description := "One clear center of interest",
    technique := some "largest bloom at center or asymmetric position",
    effect := some "clear hierarchy, classical" }

def multiple_secondary : Technique :=
  { description := "Primary focal with supporting accents",
    technique := some "triangle of focal flowers",
    effect := some "visual journey, sophisticated" }

def distributed : Technique :=
  { description := "Interest spread throughout",
    technique := some "no single dominant element",
    effect := some "garden-style, natural" }

def vertical_lift : Technique :=
  { description := "Upward reaching energy",
    technique := some "line flowers, tall stems, upright forms",
    effect := some "aspiration, celebration, growth" }

def horizontal_sweep : Technique :=
  { description := "Side-to-side flow",
    technique := some "trailing elements, lateral branches",
    effect := some "calm, peaceful, grounding" }

def spiral_rotation : Technique :=
  { description := "Circular flow around center",
    technique := some "stems arranged in spiral, flowers face different directions",
    effect := some "dynamic, natural, garden-style" }

def cascade_fall : Technique :=
  { description := "Downward waterfall motion",
    technique := some "trailing ivy, hanging amaranthus, weighted bottom",
    effect := some "drama, elegance, gravity" }

def smooth_rough_contrast : Technique :=
  { description := "Juxtapose sleek and textured elements",
    examples := some "glossy calla lilies with spiky thistle",
    effect := some "visual interest, sophisticated" }

def packed_abundant : Technique :=
  { description := "Full mass, minimal negative space",
    style := some "European garden, romantic",
    effect := some "lush, generous, romantic" }

def airy_spacious : Technique :=
  { description := "Minimal stems, maximum negative space",
    style := some "Ikebana, contemporary minimalist",
    effect := some "elegant, modern, sculptural" }

def clustered_with_voids : Technique :=
  { description := "Dense groupings separated by open space",
    style := some "Contemporary, structural",
    effect := some "drama, graphic, intentional" }

/-- The record `map_structure` returns: one chosen technique per family key. -/
structure StructureMap where
  balance : Technique
  movement : Technique
  proportion : Technique
  focal : Technique
  density : Technique
  texture : Technique
  deriving DecidableEq

/-- `map_structure(style, colors)` translated clause by clause from the
source; the `colors` argument is accepted and unused there, and the style
records of this embedding always carry a `balance` field, so the source's
`style.get("balance", "asymmetrical")` is the field itself. -/
def map_structure (style : StyleEntry) (colors : ColorScheme) : StructureMap :=
  { balance :=
      if style.balance = "symmetrical" then symmetrical_radial
      else if style.balance = "radial symmetrical" then symmetrical_radial
      else asymmetrical,
    movement :=
      if style.type = "cascade" then cascade_fall
      else if style.type = "vertical" then vertical_lift
      else if style.type = "horizontal" then horizontal_sweep
      else spiral_rotation,
    proportion := golden_ratio,
    focal :=
      if style.category = "contemporary" ∧ style.type = "minimalist" then
        single_dominant
      else multiple_secondary,
    density :=
      if style.category = "contemporary" ∧ style.type = "minimalist" then
        airy_spacious
      else if style.category = "contemporary" ∧ style.type = "garden_style" then
        packed_abundant
      else clustered_with_voids,
    texture := smooth_rough_contrast }

/-! ### OCCASIONS, map_occasion and suggest_flowers_for_occasion -/

/-- A leaf value of an occasion sub-table: a string or a list of strings. -/
inductive OccKVal where
  | s (v : String)
  | l (v : List String)
  deriving DecidableEq

/-- One sub-context of an occasion (`wedding -> ceremony -> {...}`). -/
abbrev OccSubSpec := List (String × OccKVal)

/-- One `OCCASIONS[occasion]` sub-table. -/
abbrev OccTable := List (String × OccSubSpec)

def wedding_table : OccTable :=
  [("ceremony",
     [("arrangements", .l ["altar arrangements", "aisle markers", "chuppah flowers"]),
      ("styles", .l ["romantic", "elegant", "dramatic"]),
      ("scale", .s "large, architectural")]),
   ("reception",
     [("arrangements", .l ["centerpieces", "cake flowers", "sweetheart table"]),
      ("styles", .l ["romantic", "garden-style", "elegant"]),
      ("scale", .s "medium, conversation-friendly")]),
   ("bridal_party",
     [("arrangements", .l ["bouquets", "boutonnieres", "corsages"]),
      ("styles", .l ["cohesive with ceremony", "hand-tied", "wearable"]),
      ("scale", .s "personal, scaled to person")])]

def funeral_table : OccTable :=
  [("standing_spray",
     [("description", .s "Easel-mounted vertical arrangement"),
      ("characteristics", .s "formal, respectful, traditional symbolism")]),
   ("casket_spray",
     [("description", .s "Long horizontal arrangement for casket"),
      ("characteristics", .s "full coverage, masculine or feminine styling")]),
   ("wreath",
     [("description", .s "Circular form symbolizing eternal life"),
      ("characteristics", .s "traditional, symmetrical, symbolic")]),
   ("sympathy_basket",
     [("description", .s "Comforting arrangement for home"),
      ("characteristics", .s "thoughtful, lasting, garden-style")])]

def celebration_table : OccTable :=
  [("birthday",
     [("characteristics", .s "joyful, colorful, personal to recipient"),
      ("styles", .l ["vibrant", "fun", "favorite colors"])]),
   ("anniversary",
     [("characteristics", .s "romantic, meaningful, often roses"),
      ("styles", .l ["elegant", "romantic", "traditional flowers"])]),
   ("congratulations",
     [("characteristics", .s "bright, uplifting, celebratory"),
      ("styles", .l ["vibrant", "contemporary", "bold"])]),
   ("get_well",
     [("characteristics", .s "cheerful, uplifting, fragrance-free"),
      ("styles", .l ["bright colors", "garden-style", "optimistic"])])]

def everyday_table : OccTable :=
  [("home_decor",
     [("characteristics", .s "seasonally appropriate, complements interior"),
      ("styles", .l ["garden-style", "minimalist", "whatever brings joy"])]),
   ("hostess_gift",
     [("characteristics", .s "thoughtful, pre-arranged, ready to display"),
      ("styles", .l ["elegant", "seasonal", "generous but not overwhelming"])])]

def OCCASIONS : List (String × OccTable) :=
  [("wedding", wedding_table), ("funeral", funeral_table),
   ("celebration", celebration_table), ("everyday", everyday_table)]

/-- The single-quote character, as Python renders strings inside `str(dict)`. -/
def sq : String := String.singleton (Char.ofNat 39)

/-- Python `str` of an occasion leaf value. -/
def py_str_kval : OccKVal → String
  | .s v => sq ++ v ++ sq
  | .l vs => "[" ++ String.intercalate ", " (vs.map (fun v => sq ++ v ++ sq)) ++ "]"

/-- Python `str` of one occasion sub-context dictionary. -/
def py_str_subspec (sub : OccSubSpec) : String :=
  "\x7b" ++
    String.intercalate ", "
      (sub.map (fun e => sq ++ e.1 ++ sq ++ ": " ++ py_str_kval e.2)) ++
  "\x7d"

/-- Python `str` of one `OCCASIONS[occasion]` sub-table (none of the table's
strings holds a quote, a backslash or a brace, so `repr` is plain
single-quoting). -/
def py_str_occ (t : OccTable) : String :=
  "\x7b" ++
    String.intercalate ", "
      (t.map (fun e => sq ++ e.1 ++ sq ++ ": " ++ py_str_subspec e.2)) ++
  "\x7d"

/-- The three shapes `map_occasion` returns: the keyed sub-table, a
`{occ_name: occ_data}` wrapper from the stringified-table fallback, or the
generic record. -/
inductive OccasionResult where
  | table (t : OccTable)
  | keyword_match (name : String) (t : OccTable)
  | general (occasion notes : String)
  deriving DecidableEq

/-- `map_occasion(occasion, style)` translated from the source: exact key
lookup, then the fallback that substring-searches each entry's lower-cased
`str()` form, then the generic record (`style` is accepted and unused). -/
def map_occasion (occasion : String) (style : StyleEntry) : OccasionResult :=
  match lookupStr occasion OCCASIONS with
  | some t => .table t
  | none =>
    match OCCASIONS.find? (fun e => strContains (py_lower (py_str_occ e.2)) occasion) with
    | some e => .keyword_match e.1 e.2
    | none => .general "general" "versatile arrangement suitable for various contexts"

/-- The two shapes the `suggest_flowers_for_occasion` tool returns. -/
inductive SuggestionResult where
  | ok (occasion : String) (recommendations : OccTable)
  | err (occasion : String) (error : String) (available_occasions : List String)
  deriving DecidableEq

/-- The `suggest_flowers_for_occasion` tool translated from the source. -/
def suggest_flowers_for_occasion (occasion : String) : SuggestionResult :=
  match lookupStr occasion OCCASIONS with
  | some t => .ok occasion t
  | none =>
    .err occasion ("Occasion " ++ sq ++ occasion ++ sq ++ " not found")
      (OCCASIONS.map (fun e => e.1))

/-! ### Cultural traditions, foliage records and the mapping result -/

/-- One `CULTURAL_TRADITIONS` entry; `key_concepts` and `characteristics`
are each present in some entries only. -/
structure CulturalTradition where
  philosophy : String
  principles : List String
  key_concepts : Option (List (String × String)) := none
  characteristics : Option String := none
  deriving DecidableEq

/-- The value part of one `FOLIAGE_TYPES[category][name]` entry. -/
structure FoliageData where
  types : Option (List String) := none
  characteristics : String
  use : String
  deriving DecidableEq

/-- One detected or suggested foliage record:
`{"name": ..., "category": ..., **foliage_data}`. -/
structure DetectedFoliage where
  name : String
  category : String
  data : FoliageData
  deriving DecidableEq

/-- The transient mapping result `map_floral_taxonomy` assembles; the
source's `"structure"` key is the `structure_map` field (that word is a
Lean keyword). -/
structure MappingResult where
  user_intent : String
  style : StyleEntry
  flowers : DetectedFlowers
  foliage : List DetectedFoliage
  colors : ColorScheme
  structure_map : StructureMap
  occasion : OccasionResult
  cultural_context : CulturalTradition

/-! ### format_prompt_enhancement -/

def joinComma (l : List String) : String := String.intercalate ", " l

/-- The `parts` list `format_prompt_enhancement` builds, each conditional
append kept as a conditional segment; every style record of this embedding
carries `characteristics`, so the source's
`style.get('characteristics', 'beautiful composition')` is the field itself. -/
def format_prompt_parts (mapped : MappingResult) : List String :=
  let style := mapped.style
  let focal_flowers := mapped.flowers.focal.map (fun f => f.name)
  let line_flowers := mapped.flowers.line.map (fun f => f.name)
  let filler_flowers := mapped.flowers.filler.map (fun f => f.name)
  let foliage_names := mapped.foliage.map (fun f => f.name)
  [py_title (underscore_to_space style.type) ++ " floral arrangement",
   "in " ++ style.container] ++
  (if focal_flowers.isEmpty then []
   else ["featuring " ++ joinComma focal_flowers ++ " as focal flowers"]) ++
  (if line_flowers.isEmpty then []
   else ["with " ++ joinComma line_flowers ++ " creating vertical lines"]) ++
  (if filler_flowers.isEmpty then []
   else ["filled with " ++ joinComma filler_flowers]) ++
  (if foliage_names.isEmpty then []
   else ["accented with " ++ joinComma foliage_names ++ " foliage"]) ++
  (match mapped.colors.colors with
   | some cs => ["in " ++ joinComma cs ++ " palette"]
   | none => []) ++
  ["using " ++ mapped.structure_map.balance.description,
   "with " ++ mapped.structure_map.movement.description,
   "creating " ++ style.characteristics]

/-- `format_prompt_enhancement(mapped)`: the comma-joined parts. -/
def format_prompt_enhancement (mapped : MappingResult) : String :=
  String.intercalate ", " (format_prompt_parts mapped)

/-! ### ComfyUI workflow generation -/

/-- The ASCII whitespace Python `int()` strips from both ends. -/
def pyWs (c : Char) : Bool :=
  c == ' ' || c == '\t' || c == '\n' || c == '\r' || c == '\x0b' || c == '\x0c'

/-- Strip `pyWs` characters from both ends. -/
def stripPyWs (l : List Char) : List Char :=
  ((l.dropWhile pyWs).reverse.dropWhile pyWs).reverse

/-- The digit tail of Python `int()` base 10: digits, with a single
underscore allowed between two digits. -/
def pyDigits (acc : Nat) : List Char → Option Nat
  | [] => some acc
  | c :: rest =>
    if c.isDigit then pyDigits (10 * acc + (c.toNat - 48)) rest
    else if c = '_' then
      match rest with
      | [] => none
      | d :: rest2 =>
        if d.isDigit then pyDigits (10 * acc + (d.toNat - 48)) rest2 else none
    else none

/-- The digit part of Python `int()` base 10: at least one digit first. -/
def pyDigitsStart : List Char → Option Nat
  | [] => none
  | c :: rest => if c.isDigit then pyDigits (c.toNat - 48) rest else none

/-- Python `int(s)` base 10 over ASCII text: optional surrounding whitespace,
optional sign, digits with single underscores between digits; `none` models
the `ValueError`. -/
def pyIntOfChars (l : List Char) : Option Int :=
  match stripPyWs l with
  | [] => none
  | c :: rest =>
    if c = '-' then (pyDigitsStart rest).map (fun n => -(n : Int))
    else if c = '+' then (pyDigitsStart rest).map (fun n => (n : Int))
    else (pyDigitsStart (c :: rest)).map (fun n => (n : Int))

/-- The `width, height = map(int, size.split('x'))` step of
`build_comfyui_workflow`: `none` models the exception raised on anything but
exactly two `int()`-parsable pieces. -/
def parse_size (size : String) : Option (Int × Int) :=
  match splitOnChar 'x' size.data with
  | [w, h] =>
    match pyIntOfChars w, pyIntOfChars h with
    | some a, some b => some (a, b)
    | _, _ => none
  | _ => none

/-- An integer numeral as claim C3 words "an integer": an optional minus
sign and then digits. -/
def int_numeral : List Char → Bool
  | [] => false
  | c :: rest =>
    if c = '-' then !rest.isEmpty && rest.all Char.isDigit
    else (c :: rest).all Char.isDigit

/-- A size string as claim C3 words it: two integers separated by a
literal "x". -/
def claim_size_format (size : String) : Bool :=
  match splitOnChar 'x' size.data with
  | [w, h] => int_numeral w && int_numeral h
  | _ => false

/-- A size string the code accepts: two Python `int()` literals separated by
a literal "x". -/
def py_size_format (size : String) : Bool :=
  match splitOnChar 'x' size.data with
  | [w, h] => (pyIntOfChars w).isSome && (pyIntOfChars h).isSome
  | _ => false

/-- A leaf value of a workflow node's `inputs`: a string, an integer, a float
constant (stored exactly, never computed with), or a `[node-id, slot-index]`
reference to another node. -/
inductive WVal where
  | str (s : String)
  | int (n : Int)
  | float (q : Rat)
  | ref (node : String) (slot : Nat)
  deriving DecidableEq

/-- One workflow node: a class tag and its inputs mapping. -/
structure WNode where
  class_type : String
  inputs : List (String × WVal)
  deriving DecidableEq

/-- The workflow document: nodes keyed by their id strings. -/
abbrev Workflow := List (String × WNode)

def model_map : List (String × String) :=
  [("flux", "flux1-dev.safetensors"), ("sdxl", "sd_xl_base_1.0.safetensors"),
   ("sd15", "v1-5-pruned-emaonly.safetensors")]

/-- `get_model_file(model_preference)`: `model_map.get(preference,
model_map["flux"])`. -/
def get_model_file (model_preference : String) : String :=
  match lookupStr model_preference model_map with
  | some f => f
  | none => "flux1-dev.safetensors"

/-- `build_comfyui_workflow(prompt, negative_prompt, size, model, steps)`:
`none` models the exception the size parse raises. -/
def build_comfyui_workflow (prompt negative_prompt size model : String)
    (steps : Int) : Option Workflow :=
  match parse_size size with
  | none => none
  | some (width, height) => some
    [("1", { class_type := "CheckpointLoaderSimple",
             inputs := [("ckpt_name", .str (get_model_file model))] }),
     ("2", { class_type := "CLIPTextEncode",
             inputs := [("text", .str prompt), ("clip", .ref "1" 1)] }),
     ("3", { class_type := "CLIPTextEncode",
             inputs := [("text", .str negative_prompt), ("clip", .ref "1" 1)] }),
     ("4", { class_type := "EmptyLatentImage",
             inputs := [("width", .int width), ("height", .int height),
                        ("batch_size", .int 1)] }),
     ("5", { class_type := "KSampler",
             inputs := [("seed", .int (-1)), ("steps", .int steps),
                        ("cfg", .float (15 / 2 : Rat)),
                        ("sampler_name", .str "euler_ancestral"),
                        ("scheduler", .str "normal"),
                        ("denoise", .float (1 : Rat)),
                        ("model", .ref "1" 0), ("positive", .ref "2" 0),
                        ("negative", .ref "3" 0), ("latent_image", .ref "4" 0)] }),
     ("6", { class_type := "VAEDecode",
             inputs := [("samples", .ref "5" 0), ("vae", .ref "1" 2)] }),
     ("7", { class_type := "SaveImage",
             inputs := [("filename_prefix", .str "floral_arrangement"),
                        ("images", .ref "6" 0)] })]

/-- A workflow leaf with its literal value erased: references kept exactly,
every other value a literal tag. -/
inductive SkelVal where
  | lit
  | ref (node : String) (slot : Nat)
  deriving DecidableEq

def skel_of_val : WVal → SkelVal
  | .ref n s => .ref n s
  | _ => .lit

/-- The shape of a workflow: node ids, class types, input names and
inter-node references, with literal leaf values erased. -/
def workflow_skeleton (wf : Workflow) :
    List (String × String × List (String × SkelVal)) :=
  wf.map (fun e => (e.1, e.2.class_type, e.2.inputs.map (fun i => (i.1, skel_of_val i.2))))

/-- The fixed seven-node shape every generated workflow must have. -/
def fixed_skeleton : List (String × String × List (String × SkelVal)) :=
  [("1", "CheckpointLoaderSimple", [("ckpt_name", .lit)]),
   ("2", "CLIPTextEncode", [("text", .lit), ("clip", .ref "1" 1)]),
   ("3", "CLIPTextEncode", [("text", .lit), ("clip", .ref "1" 1)]),
   ("4", "EmptyLatentImage", [("width", .lit), ("height", .lit), ("batch_size", .lit)]),
   ("5", "KSampler",
     [("seed", .lit), ("steps", .lit), ("cfg", .lit), ("sampler_name", .lit),
      ("scheduler", .lit), ("denoise", .lit), ("model", .ref "1" 0),
      ("positive", .ref "2" 0), ("negative", .ref "3" 0),
      ("latent_image", .ref "4" 0)]),
   ("6", "VAEDecode", [("samples", .ref "5" 0), ("vae", .ref "1" 2)]),
   ("7", "SaveImage", [("filename_prefix", .lit), ("images", .ref "6" 0)])]

/-- A concrete mapping result used to instantiate the formatter theorem:
a garden-style record with a line flower and the romantic palette. -/
def sample_mapping : MappingResult :=
  { user_intent := "romantic stock arrangement",
    style := mkStyle "contemporary" "garden_style" garden_style,
    flowers :=
      { focal := [{ name := "roses", role := "focal", data := roses }],
        line := [{ name := "stock", role := "line", data := stock }],
        filler := [],
        texture := [] },
    foliage := [],
    colors := mkColorScheme "romantic" romantic,
    structure_map :=
      map_structure (mkStyle "contemporary" "garden_style" garden_style)
        (mkColorScheme "romantic" romantic),
    occasion := .general "general" "versatile arrangement suitable for various contexts",
    cultural_context :=
      { philosophy := "abundance, romance, natural beauty",
        principles := ["lush fullness", "color harmony", "garden-fresh aesthetic"],
        characteristics := some "loose, organic, just-picked feel, varied textures" } }

/-! ### Helper lemmas -/

theorem lookupStr_eq_none_of_not_mem {α : Type} (k : String) (l : List (String × α))
    (h : k ∉ l.map Prod.fst) : lookupStr k l = none := by
  induction l with
  | nil => rfl
  | cons e rest ih =>
    simp only [List.map_cons, List.mem_cons, not_or] at h
    unfold lookupStr
    rw [if_neg fun hh => h.1 hh.symm]
    exact ih h.2

/-! ### C7: fixed workflow topology -/

/-- C7: for every prompt, negative prompt, well-formed size, model and steps,
the generated workflow has exactly the nodes "1".."7", with fixed class types
and a fixed inter-node reference topology (references as [node-id, slot-index]
pairs); only literal leaf values vary. -/
theorem C7_workflow_topology (prompt negative_prompt size model : String)
    (steps : Int) (wf : Workflow)
    (h : build_comfyui_workflow prompt negative_prompt size model steps = some wf) :
    workflow_skeleton wf = fixed_skeleton ∧
    wf.map (fun e => e.1) = ["1", "2", "3", "4", "5", "6", "7"] := by
  unfold build_comfyui_workflow at h
  cases hp : parse_size size with
  | none => rw [hp] at h; exact absurd h (by simp)
  | some p =>
    obtain ⟨w, hgt⟩ := p
    rw [hp] at h
    simp only [Option.some.injEq] at h
    subst h
    exact ⟨rfl, rfl⟩

theorem C7_workflow_topology_witness :
    workflow_skeleton ((build_comfyui_workflow "p" "n" "64x64" "flux" 20).getD []) =
      fixed_skeleton :=
  (C7_workflow_topology "p" "n" "64x64" "flux" 20 _ rfl).1

/-! ### C8: occasion suggestions and their error record -/

/-- C8: the occasion table's top-level keys are exactly wedding, funeral,
celebration and everyday; for a key occasion the tool returns that occasion's
sub-table, and for any other occasion it returns an error record echoing the
occasion, an error message, and exactly those four keys as
`available_occasions`. -/
theorem C8_occasion_suggestions (occasion : String) :
    OCCASIONS.map (fun e => e.1) = ["wedding", "funeral", "celebration", "everyday"] ∧
    (∀ t, lookupStr occasion OCCASIONS = some t →
      suggest_flowers_for_occasion occasion = .ok occasion t) ∧
    (occasion ∉ ["wedding", "funeral", "celebration", "everyday"] →
      suggest_flowers_for_occasion occasion =
        .err occasion ("Occasion " ++ sq ++ occasion ++ sq ++ " not found")
          ["wedding", "funeral", "celebration", "everyday"]) := by
  refine ⟨rfl, ?_, ?_⟩
  · intro t ht
    unfold suggest_flowers_for_occasion
    rw [ht]
  · intro hmem
    have hkeys : OCCASIONS.map Prod.fst = ["wedding", "funeral", "celebration", "everyday"] :=
      rfl
    have hnone : lookupStr occasion OCCASIONS = none :=
      lookupStr_eq_none_of_not_mem occasion OCCASIONS (hkeys ▸ hmem)
    unfold suggest_flowers_for_occasion
    rw [hnone]
    rfl

theorem C8_occasion_suggestions_witness :
    suggest_flowers_for_occasion "not_a_real_occasion" =
      .err "not_a_real_occasion"
        ("Occasion " ++ sq ++ "not_a_real_occasion" ++ sq ++ " not found")
        ["wedding", "funeral", "celebration", "everyday"] :=
  (C8_occasion_suggestions "not_a_real_occasion").2.2 (by decide)

/-! ### C9: model-name fallback -/

/-- C9: each of flux, sdxl and sd15 maps to its own checkpoint filename; any
other model name resolves, without error, to the flux checkpoint, and node "1"
of a generated workflow carries exactly `get_model_file`'s answer. -/
theorem C9_model_fallback (model : String) (prompt negative_prompt size : String)
    (steps : Int) (wf : Workflow) :
    (model ≠ "flux" → model ≠ "sdxl" → model ≠ "sd15" →
      get_model_file model = "flux1-dev.safetensors") ∧
    get_model_file "flux" = "flux1-dev.safetensors" ∧
    get_model_file "sdxl" = "sd_xl_base_1.0.safetensors" ∧
    get_model_file "sd15" = "v1-5-pruned-emaonly.safetensors" ∧
    ("flux1-dev.safetensors" ≠ "sd_xl_base_1.0.safetensors" ∧
      "flux1-dev.safetensors" ≠ "v1-5-pruned-emaonly.safetensors" ∧
      "sd_xl_base_1.0.safetensors" ≠ "v1-5-pruned-emaonly.safetensors") ∧
    (build_comfyui_workflow prompt negative_prompt size model steps = some wf →
      lookupStr "1" wf = some
        { class_type := "CheckpointLoaderSimple",
          inputs := [("ckpt_name", .str (get_model_file model))] }) := by
  refine ⟨?_, rfl, rfl, rfl, by decide, ?_⟩
  · intro h1 h2 h3
    simp only [get_model_file, model_map, lookupStr]
    rw [if_neg fun hh => h1 hh.symm, if_neg fun hh => h2 hh.symm,
      if_neg fun hh => h3 hh.symm]
  · intro h
    unfold build_comfyui_workflow at h
    cases hp : parse_size size with
    | none => rw [hp] at h; exact absurd h (by simp)
    | some p =>
      obtain ⟨w, hgt⟩ := p
      rw [hp] at h
      simp only [Option.some.injEq] at h
      subst h
      rfl

theorem C9_model_fallback_witness :
    get_model_file "stable-cascade" = "flux1-dev.safetensors" :=
  (C9_model_fallback "stable-cascade" "" "" "" 0 []).1 (by decide) (by decide) (by decide)

/-! ### C10: the stringified-table fallback of map_occasion -/

/-- C10: the empty occasion is not a table key, so the stringified-table
fallback fires, the empty string is a substring of the first iterated entry's
`str()` form, and the result is `{"wedding": ...}` — not the generic record;
in general a non-key occasion occurring in some entry's lower-cased string
form yields the first such entry, wrapped. -/
theorem C10_map_occasion_fallback (occasion : String) (style : StyleEntry) :
    map_occasion "" (mkStyle "contemporary" "garden_style" garden_style) =
      .keyword_match "wedding" wedding_table ∧
    (lookupStr occasion OCCASIONS = none →
      ∀ n t, OCCASIONS.find?
          (fun e => strContains (py_lower (py_str_occ e.2)) occasion) = some (n, t) →
        map_occasion occasion style = .keyword_match n t) := by
  constructor
  · decide
  · intro hnone n t hfind
    unfold map_occasion
    rw [hnone, hfind]

theorem C10_map_occasion_fallback_witness :
    map_occasion "altar" (mkStyle "contemporary" "garden_style" garden_style) =
      .keyword_match "wedding" wedding_table :=
  (C10_map_occasion_fallback "altar"
      (mkStyle "contemporary" "garden_style" garden_style)).2
    (by decide) "wedding" wedding_table (by decide)

/-! ### C2: the focal and density special cases of map_structure -/

/-- C2 as stated is false: the focal-point choice does not special-case the
(contemporary, garden_style) combination — garden_style gets exactly the same
`multiple_secondary` fallback as a style of another category (ikebana
moribana), while density does distinguish them. -/
theorem C2_focal_not_special_counterexample :
    (map_structure (mkStyle "contemporary" "garden_style" garden_style)
        (mkColorScheme "analogous" analogous)).focal =
      (map_structure (mkStyle "ikebana" "moribana" moribana)
        (mkColorScheme "analogous" analogous)).focal ∧
    (map_structure (mkStyle "contemporary" "garden_style" garden_style)
        (mkColorScheme "analogous" analogous)).focal = multiple_secondary ∧
    ¬((mkStyle "ikebana" "moribana" moribana).category = "contemporary" ∧
      ((mkStyle "ikebana" "moribana" moribana).type = "minimalist" ∨
       (mkStyle "ikebana" "moribana" moribana).type = "garden_style")) := by
  refine ⟨by decide, by decide, by decide⟩

/-- C2 amended: the density choice special-cases exactly the (contemporary,
minimalist) and (contemporary, garden_style) combinations with a shared
fallback for every other style, while the focal-point choice special-cases
only (contemporary, minimalist), every other style — (contemporary,
garden_style) included — taking the shared `multiple_secondary` fallback;
the three density choices and the two focal choices are pairwise distinct. -/
theorem C2_focal_density_amended (style : StyleEntry) (colors : ColorScheme) :
    ((map_structure style colors).focal =
      if style.category = "contemporary" ∧ style.type = "minimalist" then
        single_dominant
      else multiple_secondary) ∧
    ((map_structure style colors).density =
      if style.category = "contemporary" ∧ style.type = "minimalist" then
        airy_spacious
      else if style.category = "contemporary" ∧ style.type = "garden_style" then
        packed_abundant
      else clustered_with_voids) ∧
    single_dominant ≠ multiple_secondary ∧
    airy_spacious ≠ packed_abundant ∧ airy_spacious ≠ clustered_with_voids ∧
    packed_abundant ≠ clustered_with_voids :=
  ⟨rfl, rfl, by decide, by decide, by decide, by decide⟩

/-! ### C3: size parsing -/

theorem pyWs_eq_false_of_isDigit (c : Char) (h : c.isDigit = true) : pyWs c = false := by
  cases hw : pyWs c
  · rfl
  · exfalso
    unfold pyWs at hw
    simp only [Bool.or_eq_true, beq_iff_eq] at hw
    rcases hw with ((((h1 | h1) | h1) | h1) | h1) | h1 <;> subst h1 <;>
      exact absurd h (by decide)

theorem dropWhile_eq_self_of_head {p : Char → Bool} {l : List Char}
    (h : ∀ c ∈ l, p c = false) : l.dropWhile p = l := by
  cases l with
  | nil => rfl
  | cons a t =>
    rw [List.dropWhile_cons, if_neg]
    simp [h a (List.mem_cons_self a t)]

theorem stripPyWs_eq_self (l : List Char) (h : ∀ c ∈ l, pyWs c = false) :
    stripPyWs l = l := by
  unfold stripPyWs
  rw [dropWhile_eq_self_of_head h,
    dropWhile_eq_self_of_head (fun c hc => h c (List.mem_reverse.mp hc)),
    List.reverse_reverse]

theorem pyDigits_isSome (l : List Char) (h : l.all Char.isDigit = true) (acc : Nat) :
    (pyDigits acc l).isSome = true := by
  induction l generalizing acc with
  | nil => rfl
  | cons c t ih =>
    simp only [List.all_cons, Bool.and_eq_true] at h
    unfold pyDigits
    rw [if_pos h.1]
    exact ih h.2 _

theorem pyDigitsStart_isSome (l : List Char) (hne : l.isEmpty = false)
    (h : l.all Char.isDigit = true) : (pyDigitsStart l).isSome = true := by
  cases l with
  | nil => exact absurd hne (by decide)
  | cons c t =>
    simp only [List.all_cons, Bool.and_eq_true] at h
    simp only [pyDigitsStart]
    rw [if_pos h.1]
    exact pyDigits_isSome t h.2 _

/-- A plain integer numeral is accepted by the Python `int()` model. -/
theorem pyInt_of_int_numeral (l : List Char) (h : int_numeral l = true) :
    (pyIntOfChars l).isSome = true := by
  cases l with
  | nil => exact absurd h (by decide)
  | cons c t =>
    simp only [int_numeral] at h
    by_cases hc : c = '-'
    · subst hc
      rw [if_pos rfl] at h
      simp only [Bool.and_eq_true] at h
      have hws : ∀ ch ∈ ('-' :: t), pyWs ch = false := by
        intro ch hch
        rcases List.mem_cons.mp hch with rfl | hmem
        · decide
        · exact pyWs_eq_false_of_isDigit ch (List.all_eq_true.mp h.2 ch hmem)
      have hstrip : stripPyWs ('-' :: t) = '-' :: t := stripPyWs_eq_self _ hws
      obtain ⟨v, hv⟩ := Option.isSome_iff_exists.mp
        (pyDigitsStart_isSome t (by simpa using h.1) h.2)
      simp [pyIntOfChars, hstrip, hv]
    · rw [if_neg hc] at h
      have hdig := List.all_eq_true.mp h
      have hcd : c.isDigit = true := hdig c (List.mem_cons_self c t)
      have hws : ∀ ch ∈ (c :: t), pyWs ch = false := fun ch hch =>
        pyWs_eq_false_of_isDigit ch (hdig ch hch)
      have hplus : c ≠ '+' := by
        intro hEq; subst hEq; exact absurd hcd (by decide)
      have hstrip : stripPyWs (c :: t) = c :: t := stripPyWs_eq_self _ hws
      obtain ⟨v, hv⟩ := Option.isSome_iff_exists.mp
        (pyDigitsStart_isSome (c :: t) rfl h)
      simp [pyIntOfChars, hstrip, hv, hc, hplus]

/-- C3 as stated is false: "1_0x0" is not two integers separated by a literal
"x", yet the code parses it silently (as 10 by 0, Python's `int()` accepting
an underscore between digits) and builds a workflow instead of signalling an
error. -/
theorem C3_underscore_size_counterexample :
    claim_size_format "1_0x0" = false ∧ parse_size "1_0x0" = some (10, 0) ∧
    (build_comfyui_workflow "p" "n" "1_0x0" "flux" 20).isSome = true := by
  refine ⟨by decide, by decide, by decide⟩

/-- C3 amended: "1024x1024" parses to width 1024 and height 1024 and node "4"
of the workflow carries exactly those inputs with batch_size 1; every string
of two plain (optionally negated) decimal numerals separated by "x" parses;
and the operation signals an error exactly on strings that are not two Python
`int()` literals (optional whitespace, sign and digit-group underscores)
separated by a literal "x". -/
theorem C3_size_parsing (prompt negative_prompt model : String) (steps : Int)
    (size : String) :
    parse_size "1024x1024" = some (1024, 1024) ∧
    (∀ wf, build_comfyui_workflow prompt negative_prompt "1024x1024" model steps =
        some wf →
      lookupStr "4" wf = some
        { class_type := "EmptyLatentImage",
          inputs := [("width", .int 1024), ("height", .int 1024),
                     ("batch_size", .int 1)] }) ∧
    (claim_size_format size = true → (parse_size size).isSome = true) ∧
    (py_size_format size = false → parse_size size = none) := by
  refine ⟨by decide, ?_, ?_, ?_⟩
  · intro wf h
    unfold build_comfyui_workflow at h
    rw [show parse_size "1024x1024" = some (1024, 1024) from by decide] at h
    simp only [Option.some.injEq] at h
    subst h
    rfl
  · intro hc
    unfold claim_size_format at hc
    unfold parse_size
    cases hsplit : splitOnChar 'x' size.data with
    | nil => rw [hsplit] at hc; simp at hc
    | cons w rest =>
      cases rest with
      | nil => rw [hsplit] at hc; simp at hc
      | cons h2 rest2 =>
        cases rest2 with
        | cons a b => rw [hsplit] at hc; simp at hc
        | nil =>
          rw [hsplit] at hc
          simp only [Bool.and_eq_true] at hc
          obtain ⟨va, ha⟩ := Option.isSome_iff_exists.mp (pyInt_of_int_numeral w hc.1)
          obtain ⟨vb, hb⟩ := Option.isSome_iff_exists.mp (pyInt_of_int_numeral h2 hc.2)
          simp [ha, hb]
  · intro hp
    unfold py_size_format at hp
    unfold parse_size
    cases hsplit : splitOnChar 'x' size.data with
    | nil => rfl
    | cons w rest =>
      cases rest with
      | nil => rfl
      | cons h2 rest2 =>
        cases rest2 with
        | cons a b => rfl
        | nil =>
          rw [hsplit] at hp
          cases hw : pyIntOfChars w <;> cases hh : pyIntOfChars h2 <;> simp_all

theorem C3_size_parsing_witness :
    (parse_size "12x34").isSome = true ∧ parse_size "12x34x5" = none :=
  ⟨(C3_size_parsing "p" "n" "flux" 20 "12x34").2.2.1 (by decide),
   (C3_size_parsing "p" "n" "flux" 20 "12x34x5").2.2.2 (by decide)⟩

/-! ### C5: flower detection -/

theorem mem_role_matches {role intent : String} {tbl : List (String × FlowerData)}
    {name : String} {d : FlowerData} (hmem : (name, d) ∈ tbl)
    (hsub : strContains intent (underscore_to_space name) = true) :
    ({ name := underscore_to_space name, role := role, data := d } : DetectedFlower) ∈
      role_matches role tbl intent := by
  unfold role_matches
  rw [List.mem_filterMap]
  exact ⟨(name, d), hmem, by simp [hsub]⟩

theorem detect_flowers_eq_pass1 (intent occasion : String)
    (h : detect_flowers_pass1 intent ≠ ⟨[], [], [], []⟩) :
    detect_flowers intent occasion = detect_flowers_pass1 intent := by
  unfold detect_flowers
  by_cases h1 : ((detect_flowers_pass1 intent).focal.isEmpty
      && (detect_flowers_pass1 intent).line.isEmpty
      && (detect_flowers_pass1 intent).filler.isEmpty
      && (detect_flowers_pass1 intent).texture.isEmpty) = true
  · exfalso
    apply h
    simp only [Bool.and_eq_true, List.isEmpty_iff] at h1
    have heta : detect_flowers_pass1 intent =
        ⟨(detect_flowers_pass1 intent).focal, (detect_flowers_pass1 intent).line,
         (detect_flowers_pass1 intent).filler, (detect_flowers_pass1 intent).texture⟩ := rfl
    rw [heta, h1.1.1.1, h1.1.1.2, h1.1.2, h1.2]
  · simp [h1]

theorem guards_count (c1 c2 c3 c4 : Bool) :
    ([c1, !c1 && c2, !c1 && !c2 && c3, !c1 && !c2 && !c3 && c4,
      !c1 && !c2 && !c3 && !c4].count true) = 1 := by
  cases c1 <;> cases c2 <;> cases c3 <;> cases c4 <;> decide

theorem suggest_focal_ne_nil (occasion intent : String) :
    (suggest_flowers_by_occasion occasion intent).focal ≠ [] := by
  unfold suggest_flowers_by_occasion
  repeat' split
  all_goals decide

/-- C5: every flower whose table name (underscores replaced by spaces) occurs
in the intent is included under its correct role; the occasion fallback runs
exactly when the explicit pass matched nothing across all roles, and then at
least one role is populated; exactly one of the five fallback branches fires;
the result always carries all four role keys (it is a `DetectedFlowers`
record by construction). -/
theorem C5_flower_detection (intent occasion : String) :
    (∀ role tbl name d, (role, tbl) ∈ FLOWERS_BY_ROLE → (name, d) ∈ tbl →
      strContains intent (underscore_to_space name) = true →
      ({ name := underscore_to_space name, role := role, data := d } : DetectedFlower) ∈
        (detect_flowers intent occasion).get role) ∧
    (detect_flowers_pass1 intent ≠ ⟨[], [], [], []⟩ →
      detect_flowers intent occasion = detect_flowers_pass1 intent) ∧
    (detect_flowers_pass1 intent = ⟨[], [], [], []⟩ →
      detect_flowers intent occasion = suggest_flowers_by_occasion occasion intent ∧
      (detect_flowers intent occasion).focal ≠ []) ∧
    (occasion_branch_guards occasion intent).count true = 1 := by
  refine ⟨?_, detect_flowers_eq_pass1 intent occasion, ?_, ?_⟩
  · intro role tbl name d hrt hmem hsub
    simp only [FLOWERS_BY_ROLE, List.mem_cons, List.not_mem_nil, or_false,
      Prod.mk.injEq] at hrt
    rcases hrt with ⟨rfl, rfl⟩ | ⟨rfl, rfl⟩ | ⟨rfl, rfl⟩ | ⟨rfl, rfl⟩
    · have hm : ({ name := underscore_to_space name, role := "focal", data := d } :
          DetectedFlower) ∈ (detect_flowers_pass1 intent).focal :=
        mem_role_matches hmem hsub
      have hne : detect_flowers_pass1 intent ≠ ⟨[], [], [], []⟩ := by
        intro hEq; rw [hEq] at hm; exact absurd hm (List.not_mem_nil _)
      rw [detect_flowers_eq_pass1 intent occasion hne]
      simpa [DetectedFlowers.get] using hm
    · have hm : ({ name := underscore_to_space name, role := "line", data := d } :
          DetectedFlower) ∈ (detect_flowers_pass1 intent).line :=
        mem_role_matches hmem hsub
      have hne : detect_flowers_pass1 intent ≠ ⟨[], [], [], []⟩ := by
        intro hEq; rw [hEq] at hm; exact absurd hm (List.not_mem_nil _)
      rw [detect_flowers_eq_pass1 intent occasion hne]
      simpa [DetectedFlowers.get] using hm
    · have hm : ({ name := underscore_to_space name, role := "filler", data := d } :
          DetectedFlower) ∈ (detect_flowers_pass1 intent).filler :=
        mem_role_matches hmem hsub
      have hne : detect_flowers_pass1 intent ≠ ⟨[], [], [], []⟩ := by
        intro hEq; rw [hEq] at hm; exact absurd hm (List.not_mem_nil _)
      rw [detect_flowers_eq_pass1 intent occasion hne]
      simpa [DetectedFlowers.get] using hm
    · have hm : ({ name := underscore_to_space name, role := "texture", data := d } :
          DetectedFlower) ∈ (detect_flowers_pass1 intent).texture :=
        mem_role_matches hmem hsub
      have hne : detect_flowers_pass1 intent ≠ ⟨[], [], [], []⟩ := by
        intro hEq; rw [hEq] at hm; exact absurd hm (List.not_mem_nil _)
      rw [detect_flowers_eq_pass1 intent occasion hne]
      simpa [DetectedFlowers.get] using hm
  · intro hEq
    have h1 : detect_flowers intent occasion = suggest_flowers_by_occasion occasion intent := by
      simp [detect_flowers, hEq]
    exact ⟨h1, by rw [h1]; exact suggest_focal_ne_nil occasion intent⟩
  · simp only [occasion_branch_guards]
    exact guards_count _ _ _ _

theorem C5_flower_detection_witness :
    ({ name := "roses", role := "focal", data := roses } : DetectedFlower) ∈
      (detect_flowers "i would like roses please" "general").get "focal" :=
  (C5_flower_detection "i would like roses please" "general").1 "focal"
    focal_flower_table "roses" roses (by decide) (by decide) (by decide)

/-! ### C6: optional clauses of the formatter -/

theorem isEmpty_map {α β : Type} (f : α → β) (l : List α) :
    (l.map f).isEmpty = l.isEmpty := by
  cases l <;> rfl

theorem strAppend_left_ne_empty (a b : String) (h : a ≠ "") : a ++ b ≠ "" := by
  intro hEq
  apply h
  cases a with | mk la =>
  cases b with | mk lb =>
  have hd : la ++ lb = [] := congrArg String.data hEq
  exact congrArg String.mk (List.append_eq_nil.mp hd).1

theorem strAppend_right_ne_empty (a b : String) (h : b ≠ "") : a ++ b ≠ "" := by
  intro hEq
  apply h
  cases a with | mk la =>
  cases b with | mk lb =>
  have hd : la ++ lb = [] := congrArg String.data hEq
  exact congrArg String.mk (List.append_eq_nil.mp hd).2

/-- C6: the formatter omits entirely each optional clause whose source list is
empty (the parts count is exactly five mandatory parts plus one per nonempty
source), every emitted part is a nonempty string (so no empty ", ," clause),
and the "in ... palette" clause appears exactly when the palette record
carries an explicit colors list. -/
theorem C6_format_optional_clauses (mapped : MappingResult) :
    (∀ p ∈ format_prompt_parts mapped, p ≠ "") ∧
    (format_prompt_parts mapped).length =
      5 + (if mapped.flowers.focal.isEmpty then 0 else 1)
        + (if mapped.flowers.line.isEmpty then 0 else 1)
        + (if mapped.flowers.filler.isEmpty then 0 else 1)
        + (if mapped.foliage.isEmpty then 0 else 1)
        + (if mapped.colors.colors = none then 0 else 1) ∧
    (∀ cs, mapped.colors.colors = some cs →
      ("in " ++ joinComma cs ++ " palette") ∈ format_prompt_parts mapped) ∧
    (mapped.flowers.line ≠ [] →
      ("with " ++ joinComma (mapped.flowers.line.map (fun f => f.name))
        ++ " creating vertical lines") ∈ format_prompt_parts mapped) := by
  refine ⟨?_, ?_, ?_, ?_⟩
  · simp only [format_prompt_parts, List.forall_mem_append]
    refine ⟨⟨⟨⟨⟨⟨?_, ?_⟩, ?_⟩, ?_⟩, ?_⟩, ?_⟩, ?_⟩
    · intro p hp
      rcases List.mem_cons.mp hp with rfl | hp2
      · exact strAppend_right_ne_empty _ _ (by decide)
      rcases List.mem_cons.mp hp2 with rfl | hp3
      · exact strAppend_left_ne_empty _ _ (by decide)
      · exact absurd hp3 (List.not_mem_nil _)
    · split
      · intro p hp; exact absurd hp (List.not_mem_nil _)
      · intro p hp
        rcases List.mem_cons.mp hp with rfl | hp2
        · exact strAppend_right_ne_empty _ _ (by decide)
        · exact absurd hp2 (List.not_mem_nil _)
    · split
      · intro p hp; exact absurd hp (List.not_mem_nil _)
      · intro p hp
        rcases List.mem_cons.mp hp with rfl | hp2
        · exact strAppend_right_ne_empty _ _ (by decide)
        · exact absurd hp2 (List.not_mem_nil _)
    · split
      · intro p hp; exact absurd hp (List.not_mem_nil _)
      · intro p hp
        rcases List.mem_cons.mp hp with rfl | hp2
        · exact strAppend_left_ne_empty _ _ (by decide)
        · exact absurd hp2 (List.not_mem_nil _)
    · split
      · intro p hp; exact absurd hp (List.not_mem_nil _)
      · intro p hp
        rcases List.mem_cons.mp hp with rfl | hp2
        · exact strAppend_right_ne_empty _ _ (by decide)
        · exact absurd hp2 (List.not_mem_nil _)
    · split
      · intro p hp
        rcases List.mem_cons.mp hp with rfl | hp2
        · exact strAppend_right_ne_empty _ _ (by decide)
        · exact absurd hp2 (List.not_mem_nil _)
      · intro p hp; exact absurd hp (List.not_mem_nil _)
    · intro p hp
      rcases List.mem_cons.mp hp with rfl | hp2
      · exact strAppend_left_ne_empty _ _ (by decide)
      rcases List.mem_cons.mp hp2 with rfl | hp3
      · exact strAppend_left_ne_empty _ _ (by decide)
      rcases List.mem_cons.mp hp3 with rfl | hp4
      · exact strAppend_left_ne_empty _ _ (by decide)
      · exact absurd hp4 (List.not_mem_nil _)
  · simp only [format_prompt_parts, isEmpty_map, List.length_append]
    rcases hcol : mapped.colors.colors with _ | cs <;>
      by_cases h1 : mapped.flowers.focal.isEmpty <;>
      by_cases h2 : mapped.flowers.line.isEmpty <;>
      by_cases h3 : mapped.flowers.filler.isEmpty <;>
      by_cases h4 : mapped.foliage.isEmpty <;>
      simp [h1, h2, h3, h4]
  · intro cs hcs
    simp [format_prompt_parts, hcs]
  · intro hline
    simp [format_prompt_parts, isEmpty_map, List.isEmpty_iff, hline]

theorem C6_format_optional_clauses_witness :
    ("in " ++ joinComma ["blush pink", "cream", "soft peach", "ivory", "champagne"]
      ++ " palette") ∈ format_prompt_parts sample_mapping :=
  (C6_format_optional_clauses sample_mapping).2.2.1
    ["blush pink", "cream", "soft peach", "ivory", "champagne"] rfl

/-! ### C1: style detection priority order -/

/-- C1 as stated is false: the code also treats "trailing" as a cascade
trigger, so the all-lower-case intent "trailing" — which contains none of the
claim's enumerated trigger phrases, with a style preference naming no known
style — yields the cascade entry rather than the contemporary garden_style
default the claim requires. -/
theorem C1_trailing_counterexample :
    detect_arrangement_style "trailing" "any" ≠ detect_style_per_claim "trailing" "any" ∧
    detect_arrangement_style "trailing" "any" =
      mkStyle "western_classical" "cascade" cascade ∧
    detect_style_per_claim "trailing" "any" =
      mkStyle "contemporary" "garden_style" garden_style := by
  refine ⟨by decide, by decide, by decide⟩

/-- C1 amended: on the lower-cased intent its caller passes (the
case-insensitive reading of the claim), `detect_arrangement_style` is exactly
the first-match evaluation of the ordered rule list with "trailing" added to
the cascade rule and the ikebana rule refined to the moribana entry when
"moribana" occurs (else nageire); with no trigger matched, a preference
naming a known style type is used, and otherwise the contemporary
garden_style default is returned — no error path exists (the function is
total). -/
theorem C1_style_detection_amended (intent preference : String) :
    detect_arrangement_style (py_lower intent) preference =
      detect_style_amended_spec intent preference := by
  have hAny : findStylePreference "any" ARRANGEMENT_STYLES = none := by decide
  unfold detect_arrangement_style detect_style_amended_spec amended_style_rules
  simp only [List.find?, List.any_cons, List.any_nil, Bool.or_false, Bool.or_assoc]
  repeat' (split <;> try simp_all [Bool.or_assoc, -Bool.or_eq_true])

/-! ### C4: color-scheme rule priority -/

theorem find?_append_match {α : Type} (p : α → Bool) (l1 l2 : List α) :
    (l1 ++ l2).find? p =
      (match l1.find? p with
       | some a => some a
       | none => l2.find? p) := by
  induction l1 with
  | nil => simp
  | cons a t ih =>
    cases h : p a
    · simp [List.find?, h, ih]
    · simp [List.find?, h]

theorem find?_fst_map_palettes (il : String) (l : List (String × PaletteData)) :
    (l.map (fun e => (strContains il e.1, mkColorScheme e.1 e.2))).find? (fun r => r.1) =
      (l.find? (fun e => strContains il e.1)).map
        (fun e => (strContains il e.1, mkColorScheme e.1 e.2)) := by
  induction l with
  | nil => rfl
  | cons a t ih =>
    cases h : strContains il a.1
    · simp [List.find?, h, ih]
    · simp [List.find?, h]

theorem mem_of_lookupStr_eq_some {α : Type} {k : String} {l : List (String × α)} {v : α}
    (h : lookupStr k l = some v) : (k, v) ∈ l := by
  induction l with
  | nil => simp [lookupStr] at h
  | cons e rest ih =>
    unfold lookupStr at h
    by_cases he : e.1 = k
    · rw [if_pos he] at h
      injection h with h2
      subst he
      rw [← h2]
      exact List.mem_cons_self _ _
    · rw [if_neg he] at h
      exact List.mem_cons_of_mem _ (ih h)

/-- C4: the color detector is exactly the first-satisfied-rule evaluation of
the ordered rule list — palette-name substrings of the lower-cased intent in
table order, then the season keywords, then the mood keywords, then a
color preference naming a known palette, with the analogous palette as
default — and the result is always a single palette of the table, never a
blend. -/
theorem C4_color_rule_priority (intent color_preference occasion : String) :
    detect_color_scheme intent color_preference occasion =
      detect_color_scheme_spec intent color_preference occasion ∧
    detect_color_scheme intent color_preference occasion ∈
      COLOR_PALETTES.map (fun e => mkColorScheme e.1 e.2) := by
  constructor
  · unfold detect_color_scheme detect_color_scheme_spec color_rule_list
    rw [find?_append_match, find?_fst_map_palettes]
    cases hfind : COLOR_PALETTES.find? (fun e => strContains (py_lower intent) e.1) with
    | some e => simp [hfind]
    | none =>
      simp only [hfind, Option.map_none']
      by_cases s1 : strContains (py_lower intent) "spring" = true
      · simp [List.find?, s1]
      rw [Bool.not_eq_true] at s1
      by_cases s2 : strContains (py_lower intent) "summer" = true
      · simp [List.find?, s1, s2]
      rw [Bool.not_eq_true] at s2
      by_cases s3 : (strContains (py_lower intent) "autumn"
          || strContains (py_lower intent) "fall") = true
      · simp [List.find?, s1, s2, s3]
      rw [Bool.not_eq_true] at s3
      by_cases s4 : strContains (py_lower intent) "winter" = true
      · simp [List.find?, s1, s2, s3, s4]
      rw [Bool.not_eq_true] at s4
      by_cases s5 : (strContains (py_lower intent) "romantic"
          || strContains (py_lower intent) "wedding") = true
      · simp [List.find?, s1, s2, s3, s4, s5]
      rw [Bool.not_eq_true] at s5
      by_cases s6 : (strContains (py_lower intent) "elegant"
          || strContains (py_lower intent) "formal") = true
      · simp [List.find?, s1, s2, s3, s4, s5, s6]
      rw [Bool.not_eq_true] at s6
      by_cases s7 : (strContains (py_lower intent) "vibrant"
          || strContains (py_lower intent) "bold") = true
      · simp [List.find?, s1, s2, s3, s4, s5, s6, s7]
      rw [Bool.not_eq_true] at s7
      cases hlk : lookupStr color_preference COLOR_PALETTES with
      | some d => simp [List.find?, s1, s2, s3, s4, s5, s6, s7, hlk]
      | none => simp [List.find?, s1, s2, s3, s4, s5, s6, s7, hlk]
  · unfold detect_color_scheme
    cases hfind : COLOR_PALETTES.find? (fun e => strContains (py_lower intent) e.1) with
    | some e =>
      simp only [hfind]
      exact List.mem_map_of_mem (fun e => mkColorScheme e.1 e.2)
        (List.mem_of_find?_eq_some hfind)
    | none =>
      simp only [hfind]
      repeat' split
      all_goals
        first
        | decide
        | (rename_i d hlk
           exact List.mem_map_of_mem _ (mem_of_lookupStr_eq_some hlk))

end FloralArrangement
